import Mathlib

/-!
# Verification of the modest-sql engine's session/dispatch layer

Shallow embedding of `main.go` (final iteration, with the `DBManager`
registry) of the modest-sql engine. External collaborators
(`data.NewDatabase`, `parser.Parse`, `os.Remove`, JSON marshalling) are
modelled as oracle parameters; the registry's `sync.Map`s are modelled as
association lists with store-replaces semantics.
-/

set_option autoImplicit false

namespace ModestEngine

/-- Session identifiers are Go `int64` values (`network.Request.SessionID`). -/
abbrev SessionID := Int

/-- An opened database handle (`*data.Database`): identified by the path the
storage engine opened it at. Table contents live in the external storage
collaborator and are not modelled. -/
structure DB where
  path : String
deriving DecidableEq

/-! ## Association-list model of `sync.Map` -/

/-- `sync.Map.Load`: the value stored under `k`, if any. -/
def loadAssoc {α β : Type} [DecidableEq α] (m : List (α × β)) (k : α) : Option β :=
  match m with
  | [] => none
  | (k', v) :: rest => if k' = k then some v else loadAssoc rest k

/-- All entries whose key differs from `k` (the complement of a map delete). -/
def removeKey {α β : Type} [DecidableEq α] (m : List (α × β)) (k : α) : List (α × β) :=
  match m with
  | [] => []
  | (k', v) :: rest => if k' = k then removeKey rest k else (k', v) :: removeKey rest k

/-- `sync.Map.Store`: replaces any previous value under `k`. -/
def storeAssoc {α β : Type} [DecidableEq α] (m : List (α × β)) (k : α) (v : β) :
    List (α × β) :=
  (k, v) :: removeKey m k

/-- `sync.Map.Delete`: removes the entry under `k`, if any. -/
def deleteAssoc {α β : Type} [DecidableEq α] (m : List (α × β)) (k : α) : List (α × β) :=
  removeKey m k

theorem loadAssoc_storeAssoc_self {α β : Type} [DecidableEq α]
    (m : List (α × β)) (k : α) (v : β) : loadAssoc (storeAssoc m k v) k = some v := by
  simp [storeAssoc, loadAssoc]

theorem loadAssoc_removeKey_ne {α β : Type} [DecidableEq α]
    (m : List (α × β)) (k k' : α) (h : k' ≠ k) :
    loadAssoc (removeKey m k) k' = loadAssoc m k' := by
  induction m with
  | nil => rfl
  | cons hd tl ih =>
    obtain ⟨a, b⟩ := hd
    have hke : ¬ (k = k') := fun hEq => h hEq.symm
    by_cases hk : a = k
    · simp [removeKey, loadAssoc, hk, hke, ih]
    · by_cases hk' : a = k'
      · simp [removeKey, loadAssoc, hk, hk', h]
      · simp [removeKey, loadAssoc, hk, hk', ih]

theorem loadAssoc_storeAssoc_ne {α β : Type} [DecidableEq α]
    (m : List (α × β)) (k k' : α) (v : β) (h : k' ≠ k) :
    loadAssoc (storeAssoc m k v) k' = loadAssoc m k' := by
  have h' : ¬ (k = k') := fun hEq => h hEq.symm
  simp [storeAssoc, loadAssoc, h', loadAssoc_removeKey_ne m k k' h]

theorem loadAssoc_removeKey_self {α β : Type} [DecidableEq α]
    (m : List (α × β)) (k : α) : loadAssoc (removeKey m k) k = none := by
  induction m with
  | nil => rfl
  | cons hd tl ih =>
    obtain ⟨a, b⟩ := hd
    by_cases hk : a = k
    · simpa [removeKey, hk] using ih
    · simpa [removeKey, loadAssoc, hk] using ih

theorem removeKey_sublist {α β : Type} [DecidableEq α]
    (m : List (α × β)) (k : α) : List.Sublist (removeKey m k) m := by
  induction m with
  | nil => simp [removeKey]
  | cons hd tl ih =>
    obtain ⟨a, b⟩ := hd
    by_cases hk : a = k
    · simpa [removeKey, hk] using ih.cons (a, b)
    · simpa [removeKey, hk] using ih.cons₂ (a, b)

/-- The keys of an association list are pairwise distinct. -/
def keysNodup {α β : Type} (m : List (α × β)) : Prop := (m.map Prod.fst).Nodup

theorem keysNodup_removeKey {α β : Type} [DecidableEq α]
    (m : List (α × β)) (k : α) (h : keysNodup m) :
    keysNodup (removeKey m k) := by
  unfold keysNodup at h ⊢
  exact ((removeKey_sublist m k).map Prod.fst).nodup h

theorem not_mem_keys_removeKey {α β : Type} [DecidableEq α] (m : List (α × β)) (k : α) :
    k ∉ (removeKey m k).map Prod.fst := by
  induction m with
  | nil => simp [removeKey]
  | cons hd tl ih =>
    obtain ⟨a, b⟩ := hd
    by_cases hk : a = k
    · simpa [removeKey, hk] using ih
    · simp [removeKey, hk, ih]
      exact fun hEq => hk hEq.symm

theorem keysNodup_storeAssoc {α β : Type} [DecidableEq α]
    (m : List (α × β)) (k : α) (v : β) (h : keysNodup m) :
    keysNodup (storeAssoc m k v) := by
  unfold keysNodup storeAssoc
  refine List.nodup_cons.mpr ⟨not_mem_keys_removeKey m k, ?_⟩
  exact keysNodup_removeKey m k h

theorem keysNodup_deleteAssoc {α β : Type} [DecidableEq α]
    (m : List (α × β)) (k : α) (h : keysNodup m) :
    keysNodup (deleteAssoc m k) := keysNodup_removeKey m k h

theorem keysNodup_mem_unique {α β : Type} {m : List (α × β)}
    (h : keysNodup m) {k : α} {v1 v2 : β}
    (h1 : (k, v1) ∈ m) (h2 : (k, v2) ∈ m) : v1 = v2 := by
  induction m with
  | nil => cases h1
  | cons hd tl ih =>
    have hnd := List.nodup_cons.mp h
    rcases List.mem_cons.mp h1 with h1 | h1 <;> rcases List.mem_cons.mp h2 with h2 | h2
    · exact congrArg Prod.snd (h1.trans h2.symm)
    · exfalso
      apply hnd.1
      have hfst : hd.1 = k := by rw [← h1]
      rw [hfst]
      exact List.mem_map.mpr ⟨(k, v2), h2, rfl⟩
    · exfalso
      apply hnd.1
      have hfst : hd.1 = k := by rw [← h2]
      rw [hfst]
      exact List.mem_map.mpr ⟨(k, v1), h1, rfl⟩
    · exact ih hnd.2 h1 h2

theorem removeKey_keep_eq_nil {α β : Type} [DecidableEq α]
    (m : List (α × β)) (k : α) :
    (removeKey m k).filter (fun p => decide (p.1 = k)) = [] := by
  induction m with
  | nil => rfl
  | cons hd tl ih =>
    obtain ⟨a, b⟩ := hd
    by_cases hk : a = k <;> simp [removeKey, List.filter, hk, ih]

/-! ## The registry (`DBManager`) -/

/-- The `DBManager` of main.go: `databases` maps database names to open
handles, `paired` maps session IDs to the handle each session is bound to. -/
structure DBManager where
  databases : List (String × DB)
  paired : List (SessionID × DB)
deriving DecidableEq

/-- Go error string of `DBManager.pair` when the name is not registered. -/
def notLoadedMsg : String := "Error pairing, Database isn\x27t loaded or doesnt exist"

/-- Go error string of `DBManager.unpair` when the session has no binding. -/
def notFoundMsg : String := "Database specified wasn\x27t found"

/-- Go error string of `DBManager.getPair` when the session has no binding. -/
def noActiveMsg : String := "No active database selected"

/-- `filepath.Join(path, name)` for the simple two-component case. -/
def joinPath (path name : String) : String := path ++ "/" ++ name

/-- `DBManager.pair`: associates a session with an already-opened handle by
name; fails if no handle with that name is registered. -/
def DBManager.pair (DBM : DBManager) (sessionID : SessionID) (name : String) :
    Except String DBManager :=
  match loadAssoc DBM.databases name with
  | none => .error notLoadedMsg
  | some databasePointer =>
      .ok { DBM with paired := storeAssoc DBM.paired sessionID databasePointer }

/-- `DBManager.unpair`: deletes the relation between a session and a database;
fails if the session had none. -/
def DBManager.unpair (DBM : DBManager) (sessionID : SessionID) :
    Except String DBManager :=
  match loadAssoc DBM.paired sessionID with
  | some _ => .ok { DBM with paired := deleteAssoc DBM.paired sessionID }
  | none => .error notFoundMsg

/-- `DBManager.getPair`: the handle paired with the session, if any. -/
def DBManager.getPair (DBM : DBManager) (sessionID : SessionID) :
    Except String DB :=
  match loadAssoc DBM.paired sessionID with
  | some dbpointer => .ok dbpointer
  | none => .error noActiveMsg

/-- `DBManager.createDatabase`: calls `data.NewDatabase(filepath.Join(path,
name), blocksize)` (the `newDB` oracle), registers the handle under `name`
and pairs the session to it. On an oracle error the error is returned and
nothing is stored. -/
def DBManager.createDatabase (DBM : DBManager) (sessionID : SessionID)
    (name path : String) (blocksize : Int)
    (newDB : String → Int → Except String DB) : Except String DBManager :=
  match newDB (joinPath path name) blocksize with
  | .error e => .error e
  | .ok db =>
      let DBM' : DBManager := { DBM with databases := storeAssoc DBM.databases name db }
      DBM'.pair sessionID name

/-! ## Requests, responses, commands, continuations -/

/-- The wire type tags of `network.Response.Type`. -/
inductive ResponseType
  | keepAlive
  | newDatabase
  | loadDatabase
  | newTable
  | findTable
  | getMetadata
  | query
  | showTransaction
  | error
  | sessionExited
  | dropDb
  | notification
deriving DecidableEq

/-- `network.Response`: a type tag and a data string. -/
structure Response where
  type : ResponseType
  data : String
deriving DecidableEq

/-- `network.Request`: the session that sent it and its payload response. -/
structure Request where
  sessionID : SessionID
  response : Response
deriving DecidableEq

/-- The parsed command kinds of the `common` package that the final
iteration's binder switches on (`*common.DropCommand` is the drop-table
command); `alterTable` models `*common.AlterTableCommand`, which has no case
in that switch. -/
inductive Command
  | createTable
  | delete
  | insert
  | updateTable
  | selectTable
  | dropTable
  | alterTable
deriving DecidableEq

/-- The untyped success payload (`interface\x7b\x7d`) a continuation receives. -/
inductive ExecResult
  | table (name : String)
  | rows (json : String)
  | voidResult
deriving DecidableEq

/-- What invoking a continuation does: emit sends, or panic (a failed Go
type assertion). -/
inductive ContOutcome
  | sends (l : List (SessionID × Response))
  | panicked
deriving DecidableEq

/-- A continuation: `func(result interface\x7b\x7d, err error)`, the Go `error`
modelled as `Option String`. -/
def Cont : Type := ExecResult → Option String → ContOutcome

/-- Models `json.Marshal(result)` in the select continuation. -/
def marshalResult : ExecResult → String
  | .table nm => nm
  | .rows js => js
  | .voidResult => "null"

/-- Continuation bound to `*common.CreateTableCommand` (final iteration). -/
def createTableCont (sid : SessionID) : Cont := fun _ err =>
  match err with
  | some e => .sends [(sid, ⟨.error, e⟩)]
  | none => .sends [(sid, ⟨.notification, "Table Created"⟩)]

/-- Continuation bound to `*common.DeleteCommand`. -/
def deleteCont (sid : SessionID) : Cont := fun _ err =>
  match err with
  | some e => .sends [(sid, ⟨.error, e⟩)]
  | none => .sends [(sid, ⟨.notification, "Data Deleted"⟩)]

/-- Continuation bound to `*common.InsertCommand`. -/
def insertCont (sid : SessionID) : Cont := fun _ err =>
  match err with
  | some e => .sends [(sid, ⟨.error, e⟩)]
  | none => .sends [(sid, ⟨.notification, "Data Inserted"⟩)]

/-- Continuation bound to `*common.UpdateTableCommand`. -/
def updateCont (sid : SessionID) : Cont := fun _ err =>
  match err with
  | some e => .sends [(sid, ⟨.error, e⟩)]
  | none => .sends [(sid, ⟨.notification, "Data Updated"⟩)]

/-- Continuation bound to `*common.SelectTableCommand`. -/
def selectCont (sid : SessionID) : Cont := fun result err =>
  match err with
  | some e => .sends [(sid, ⟨.error, e⟩)]
  | none => .sends [(sid, ⟨.query, marshalResult result⟩)]

/-- Continuation bound to `*common.DropCommand` (drop table). -/
def dropTableCont (sid : SessionID) : Cont := fun _ err =>
  match err with
  | some e => .sends [(sid, ⟨.error, e⟩)]
  | none => .sends [(sid, ⟨.notification, "Table Dropped"⟩)]

/-- The create-table continuation of the first iteration (which appended the
created table's name); its Go type assertion `result.(*data.Table)` panics
on a non-table success payload. -/
def createTableContV1 (sid : SessionID) : Cont := fun result err =>
  match err with
  | some e => .sends [(sid, ⟨.error, e⟩)]
  | none =>
      match result with
      | .table nm => .sends [(sid, ⟨.notification, "Table Created " ++ nm⟩)]
      | _ => .panicked

/-- The `switch command.(type)` of the final iteration's Query handler: the
continuation bound to each command kind. A kind with no case (alter-table)
leaves the Go `function` variable nil, modelled as `none`. -/
def bindContinuation (sid : SessionID) : Command → Option Cont
  | .createTable => some (createTableCont sid)
  | .delete => some (deleteCont sid)
  | .insert => some (insertCont sid)
  | .updateTable => some (updateCont sid)
  | .selectTable => some (selectCont sid)
  | .dropTable => some (dropTableCont sid)
  | .alterTable => none

/-- `databaseTemp.CommandFactory(command, function)`: a command paired with
the (possibly nil) continuation bound to it. -/
structure BoundCommand where
  cmd : Command
  cont : Option Cont

/-! ## The Request Dispatcher (`handleRequest`, final iteration) -/

/-- The fields of `settings.json` the dispatcher reads. -/
structure Settings where
  root : String
  blockSize : Int

/-- External collaborators the dispatcher calls, as oracles: the storage
engine's `data.NewDatabase`, the parser's `parser.Parse`, `os.Remove`
(returning an error message or `none` for success), and the two fallible
`json.Marshal` calls — of the metadata snapshot and of the
`transaction.GetTransactions()` snapshot; on a marshal error Go leaves the
byte slice nil, so the string interpolated into the response is empty. -/
structure Oracles where
  newDB : String → Int → Except String DB
  parse : String → Except String (List Command)
  removeFile : String → Option String
  marshalMeta : List (String × DB) → Except String String
  marshalTransactions : Except String String

/-- `DBManager.getMetadata`: the snapshot of every open handle (table lists
live in the external storage collaborator). -/
def DBManager.getMetadata (DBM : DBManager) : List (String × DB) := DBM.databases

/-- Everything one `handleRequest` call does: the registry afterwards, the
responses sent (`server.Send`), the error strings printed to the server
console (`fmt.Print`/`Println`), every error value that became non-nil while
handling (ghost instrumentation), the files removed by `os.Remove`, and the
batches submitted to `transaction.AddCommands`. -/
structure HandleResult where
  dbm : DBManager
  sends : List (SessionID × Response) := []
  logs : List String := []
  errs : List String := []
  removed : List String := []
  batches : List (List BoundCommand) := []

/-- `handleRequest` of the final iteration, one switch case per request
type; types without a case body (new-table, find-table, error, and the
unlisted notification tag) do nothing. -/
def handleRequest (st : DBManager) (settings : Settings) (ors : Oracles)
    (request : Request) : HandleResult :=
  match request.response.type with
  | .keepAlive =>
      { dbm := st, sends := [(request.sessionID, ⟨.keepAlive, "Alive"⟩)] }
  | .newDatabase =>
      match st.createDatabase request.sessionID request.response.data
          settings.root settings.blockSize ors.newDB with
      | .error e =>
          { dbm := st, sends := [(request.sessionID, ⟨.error, e⟩)], errs := [e] }
      | .ok st' => { dbm := st' }
  | .loadDatabase =>
      match st.pair request.sessionID request.response.data with
      | .error e =>
          { dbm := st, sends := [(request.sessionID, ⟨.error, e⟩)], errs := [e] }
      | .ok st' => { dbm := st' }
  | .newTable => { dbm := st }
  | .findTable => { dbm := st }
  | .getMetadata =>
      match ors.marshalMeta st.getMetadata with
      | .ok js =>
          { dbm := st
            sends := [(request.sessionID,
              ⟨.getMetadata, "\x7bDatabases:" ++ js ++ "\x7d"⟩)] }
      | .error e =>
          { dbm := st
            sends := [(request.sessionID,
              ⟨.getMetadata, "\x7bDatabases:" ++ "" ++ "\x7d"⟩)]
            logs := [e], errs := [e] }
  | .query =>
      match st.getPair request.sessionID with
      | .error e =>
          { dbm := st, sends := [(request.sessionID, ⟨.error, e⟩)], errs := [e] }
      | .ok _ =>
          match ors.parse request.response.data with
          | .error e =>
              { dbm := st, sends := [(request.sessionID, ⟨.error, e⟩)], errs := [e] }
          | .ok commands =>
              { dbm := st
                batches :=
                  [commands.map (fun c => ⟨c, bindContinuation request.sessionID c⟩)] }
  | .showTransaction =>
      match ors.marshalTransactions with
      | .ok js =>
          { dbm := st
            sends := [(request.sessionID,
              ⟨.showTransaction, "\x7bTransactions:" ++ js ++ "\x7d"⟩)] }
      | .error e =>
          { dbm := st
            sends := [(request.sessionID,
              ⟨.showTransaction, "\x7bTransactions:" ++ "" ++ "\x7d"⟩)]
            logs := [e], errs := [e] }
  | .error => { dbm := st }
  | .sessionExited =>
      match st.unpair request.sessionID with
      | .error e => { dbm := st, logs := [e], errs := [e] }
      | .ok st' => { dbm := st' }
  | .dropDb =>
      match ors.removeFile (joinPath settings.root request.response.data) with
      | some e => { dbm := st, logs := [e], errs := [e] }
      | none =>
          { dbm := st, removed := [joinPath settings.root request.response.data] }
  | .notification => { dbm := st }

/-! ## The Connection Acceptor loop -/

/-- An accepted TCP connection (opaque identity). -/
structure Conn where
  id : Nat
deriving DecidableEq

/-- Outcome of `listener.Accept()`. Per the `net` package contract, a failed
accept returns a nil `Conn` together with the non-nil error; a successful
accept returns a non-nil `Conn` and a nil error. -/
inductive AcceptOutcome
  | success (c : Conn)
  | failure (errMsg : String)
deriving DecidableEq

/-- The Go runtime panic raised by a method call on a nil interface value. -/
def nilDerefMsg : String :=
  "runtime error: invalid memory address or nil pointer dereference"

/-- `conn.Close()` on a possibly-nil `net.Conn` interface value: a method
call on a nil interface value panics at runtime in Go. -/
def connClose : Option Conn → Except String Unit
  | none => .error nilDerefMsg
  | some _ => .ok ()

/-- What one iteration of the accept loop amounts to. -/
inductive AcceptStepResult
  | joined (c : Conn)
  | sleptAndRetried
  | panicked (msg : String)
deriving DecidableEq

/-- One iteration of the accept loop in `main` (final iteration): on
`err != nil` the code runs `conn.Close()` — where `conn` is the nil value
`Accept` returned — and only then would sleep 100ms and continue; on
success it prints and joins the connection to the server. -/
def acceptIteration : AcceptOutcome → AcceptStepResult
  | .success c => .joined c
  | .failure _ =>
      match connClose none with
      | .error m => .panicked m
      | .ok _ => .sleptAndRetried

/-! ## Shape lemmas for the registry operations -/

theorem pair_ok_shape (st : DBManager) (sid : SessionID) (name : String)
    (st' : DBManager) (h : st.pair sid name = .ok st') :
    ∃ db, loadAssoc st.databases name = some db ∧
      st' = { st with paired := storeAssoc st.paired sid db } := by
  unfold DBManager.pair at h
  cases hload : loadAssoc st.databases name with
  | none => rw [hload] at h; cases h
  | some db =>
    rw [hload] at h
    cases h
    exact ⟨db, rfl, rfl⟩

theorem unpair_ok_shape (st : DBManager) (sid : SessionID)
    (st' : DBManager) (h : st.unpair sid = .ok st') :
    st' = { st with paired := deleteAssoc st.paired sid } := by
  unfold DBManager.unpair at h
  cases hload : loadAssoc st.paired sid with
  | none => rw [hload] at h; cases h
  | some db => rw [hload] at h; cases h; rfl

theorem createDatabase_ok_shape (st : DBManager) (sid : SessionID)
    (name path : String) (bs : Int) (newDB : String → Int → Except String DB)
    (st' : DBManager) (h : st.createDatabase sid name path bs newDB = .ok st') :
    ∃ db, newDB (joinPath path name) bs = .ok db ∧
      st' = ⟨storeAssoc st.databases name db, storeAssoc st.paired sid db⟩ := by
  unfold DBManager.createDatabase at h
  cases hn : newDB (joinPath path name) bs with
  | error e => rw [hn] at h; cases h
  | ok db =>
    rw [hn] at h
    simp only [DBManager.pair, loadAssoc_storeAssoc_self] at h
    injection h with h
    subst h
    exact ⟨db, rfl, rfl⟩

/-! ## Claim theorems -/

/-- C4: `createDatabase(sessionID, name, rootPath, blockSize)` opens a new
handle at `rootPath/name` with the given block size, registers it under
`name` and pairs the session to it in one step; if handle creation fails,
the error is returned, nothing is registered, and the dispatcher leaves the
registry unchanged while reporting the error to the client. -/
theorem createDatabase_atomic (st : DBManager) (sid : SessionID)
    (name : String) (db : DB) (e : String) (settings : Settings)
    (nok : String → Int → Except String DB) (ors : Oracles)
    (hok : nok (joinPath settings.root name) settings.blockSize = .ok db)
    (herr : ors.newDB (joinPath settings.root name) settings.blockSize = .error e) :
    st.createDatabase sid name settings.root settings.blockSize nok =
      .ok ⟨storeAssoc st.databases name db, storeAssoc st.paired sid db⟩ ∧
    st.createDatabase sid name settings.root settings.blockSize ors.newDB = .error e ∧
    (handleRequest st settings ors ⟨sid, ⟨.newDatabase, name⟩⟩).dbm = st ∧
    (handleRequest st settings ors ⟨sid, ⟨.newDatabase, name⟩⟩).sends =
      [(sid, ⟨.error, e⟩)] := by
  have h2 : st.createDatabase sid name settings.root settings.blockSize ors.newDB =
      .error e := by
    unfold DBManager.createDatabase
    rw [herr]
  refine ⟨?_, h2, ?_, ?_⟩
  · unfold DBManager.createDatabase
    rw [hok]
    simp only [DBManager.pair, loadAssoc_storeAssoc_self]
  · simp [handleRequest, h2]
  · simp [handleRequest, h2]

/-- C4 witness: a concrete registry, a succeeding and a failing storage
oracle. -/
theorem createDatabase_atomic_witness :
    (DBManager.mk [] []).createDatabase 1 "d" "r" 16 (fun _ _ => .ok ⟨"r/d"⟩) =
      .ok ⟨storeAssoc [] "d" ⟨"r/d"⟩, storeAssoc [] 1 ⟨"r/d"⟩⟩ ∧
    (DBManager.mk [] []).createDatabase 1 "d" "r" 16 (fun _ _ => .error "disk full") =
      .error "disk full" ∧
    (handleRequest ⟨[], []⟩ ⟨"r", 16⟩
        ⟨fun _ _ => .error "disk full", fun _ => .error "", fun _ => none,
          fun _ => .ok "", .ok ""⟩
        ⟨1, ⟨.newDatabase, "d"⟩⟩).dbm = (⟨[], []⟩ : DBManager) ∧
    (handleRequest ⟨[], []⟩ ⟨"r", 16⟩
        ⟨fun _ _ => .error "disk full", fun _ => .error "", fun _ => none,
          fun _ => .ok "", .ok ""⟩
        ⟨1, ⟨.newDatabase, "d"⟩⟩).sends = [(1, ⟨.error, "disk full"⟩)] :=
  createDatabase_atomic ⟨[], []⟩ 1 "d" ⟨"r/d"⟩ "disk full" ⟨"r", 16⟩
    (fun _ _ => .ok ⟨"r/d"⟩)
    ⟨fun _ _ => .error "disk full", fun _ => .error "", fun _ => none, fun _ => .ok "", .ok ""⟩
    rfl rfl

/-- C5: after a successful `unpair(S)`, `getPair(S)` fails with the
no-active-database error; a second `unpair(S)` fails with the not-found
error, and the binding stays removed. -/
theorem unpair_then_getPair_fails (st : DBManager) (sid : SessionID) (db : DB)
    (hbind : st.getPair sid = .ok db) :
    st.unpair sid = .ok { st with paired := deleteAssoc st.paired sid } ∧
    (DBManager.mk st.databases (deleteAssoc st.paired sid)).getPair sid =
      .error noActiveMsg ∧
    (DBManager.mk st.databases (deleteAssoc st.paired sid)).unpair sid =
      .error notFoundMsg ∧
    loadAssoc (deleteAssoc st.paired sid) sid = none := by
  unfold DBManager.getPair at hbind
  cases hload : loadAssoc st.paired sid with
  | none => rw [hload] at hbind; cases hbind
  | some db0 =>
    have hdel : loadAssoc (deleteAssoc st.paired sid) sid = none :=
      loadAssoc_removeKey_self st.paired sid
    refine ⟨?_, ?_, ?_, hdel⟩
    · unfold DBManager.unpair
      rw [hload]
    · unfold DBManager.getPair
      rw [hdel]
    · unfold DBManager.unpair
      rw [hdel]

/-- C5 witness: session 1 bound, then unpaired. -/
theorem unpair_then_getPair_fails_witness :
    (DBManager.mk [] [(1, ⟨"r/d"⟩)]).unpair 1 =
      .ok ⟨[], deleteAssoc [(1, ⟨"r/d"⟩)] 1⟩ ∧
    (DBManager.mk [] (deleteAssoc [(1, ⟨"r/d"⟩)] 1)).getPair 1 =
      .error noActiveMsg ∧
    (DBManager.mk [] (deleteAssoc [(1, ⟨"r/d"⟩)] 1)).unpair 1 =
      .error notFoundMsg ∧
    loadAssoc (deleteAssoc [(1, (⟨"r/d"⟩ : DB))] 1) 1 = none :=
  unpair_then_getPair_fails ⟨[], [(1, ⟨"r/d"⟩)]⟩ 1 ⟨"r/d"⟩ rfl

/-- C7: binding one session — by `pair` or by `createDatabase` — leaves
every other session's binding unchanged. -/
theorem binding_frame (st : DBManager) (s1 s2 : SessionID)
    (name cname path : String) (bs : Int)
    (newDB : String → Int → Except String DB) (st1 st2 : DBManager)
    (hne : s1 ≠ s2)
    (hp : st.pair s1 name = .ok st1)
    (hc : st.createDatabase s1 cname path bs newDB = .ok st2) :
    st1.getPair s2 = st.getPair s2 ∧ st2.getPair s2 = st.getPair s2 := by
  have hne' : s2 ≠ s1 := fun hEq => hne hEq.symm
  constructor
  · rcases pair_ok_shape st s1 name st1 hp with ⟨db, _, hshape⟩
    rw [hshape]
    unfold DBManager.getPair
    rw [loadAssoc_storeAssoc_ne st.paired s1 s2 db hne']
  · rcases createDatabase_ok_shape st s1 cname path bs newDB st2 hc with ⟨db, _, hshape⟩
    rw [hshape]
    unfold DBManager.getPair
    rw [loadAssoc_storeAssoc_ne st.paired s1 s2 db hne']

/-- C7 witness: session 2 keeps its binding when session 1 pairs to `d` or
creates `n`. -/
theorem binding_frame_witness :
    (DBManager.mk [("d", ⟨"r/d"⟩)] [(1, ⟨"r/d"⟩), (2, ⟨"r/d"⟩)]).getPair 2 =
      (DBManager.mk [("d", ⟨"r/d"⟩)] [(2, ⟨"r/d"⟩)]).getPair 2 ∧
    (DBManager.mk [("n", ⟨"r/n"⟩), ("d", ⟨"r/d"⟩)]
        [(1, ⟨"r/n"⟩), (2, ⟨"r/d"⟩)]).getPair 2 =
      (DBManager.mk [("d", ⟨"r/d"⟩)] [(2, ⟨"r/d"⟩)]).getPair 2 :=
  binding_frame ⟨[("d", ⟨"r/d"⟩)], [(2, ⟨"r/d"⟩)]⟩ 1 2 "d" "n" "r" 16
    (fun _ _ => .ok ⟨"r/n"⟩)
    ⟨[("d", ⟨"r/d"⟩)], [(1, ⟨"r/d"⟩), (2, ⟨"r/d"⟩)]⟩
    ⟨[("n", ⟨"r/n"⟩), ("d", ⟨"r/d"⟩)], [(1, ⟨"r/n"⟩), (2, ⟨"r/d"⟩)]⟩
    (by decide) rfl rfl

/-- C10: handling a load-database request never opens a database file from
disk (the handler's outcome is independent of every external oracle) and
leaves the registry's set of open handles unchanged: it only pairs the
requesting session to an already-registered handle, and answers with an
Error response when no handle is registered under the name, even if a
matching file exists on disk. -/
theorem loadDatabase_pairs_only (st : DBManager) (settings : Settings)
    (ors ors' : Oracles) (req : Request)
    (hty : req.response.type = .loadDatabase) :
    (handleRequest st settings ors req).dbm.databases = st.databases ∧
    handleRequest st settings ors req = handleRequest st settings ors' req ∧
    (∀ db, loadAssoc st.databases req.response.data = some db →
      handleRequest st settings ors req =
        { dbm := { st with paired := storeAssoc st.paired req.sessionID db } }) ∧
    (loadAssoc st.databases req.response.data = none →
      handleRequest st settings ors req =
        { dbm := st, sends := [(req.sessionID, ⟨.error, notLoadedMsg⟩)],
          errs := [notLoadedMsg] }) := by
  obtain ⟨sid, ty, data⟩ := req
  cases hty
  cases hload : loadAssoc st.databases data with
  | none =>
    refine ⟨?_, ?_, ?_, ?_⟩ <;>
      simp [handleRequest, DBManager.pair, hload]
  | some db =>
    refine ⟨?_, ?_, ?_, ?_⟩ <;>
      simp [handleRequest, DBManager.pair, hload]

/-- C10 witness: a registry with `d` registered; loading `d` pairs, loading
an unknown name errors — with two different oracle bundles. -/
theorem loadDatabase_pairs_only_witness :
    (handleRequest ⟨[("d", ⟨"r/d"⟩)], []⟩ ⟨"r", 16⟩
        ⟨fun _ _ => .error "", fun _ => .error "", fun _ => none, fun _ => .ok "", .ok ""⟩
        ⟨1, ⟨.loadDatabase, "d"⟩⟩).dbm.databases = [("d", ⟨"r/d"⟩)] ∧
    handleRequest ⟨[("d", ⟨"r/d"⟩)], []⟩ ⟨"r", 16⟩
        ⟨fun _ _ => .error "", fun _ => .error "", fun _ => none, fun _ => .ok "", .ok ""⟩
        ⟨1, ⟨.loadDatabase, "d"⟩⟩ =
      handleRequest ⟨[("d", ⟨"r/d"⟩)], []⟩ ⟨"r", 16⟩
        ⟨fun _ _ => .ok ⟨"other"⟩, fun _ => .ok [], fun _ => some "x", fun _ => .ok "m", .ok "t"⟩
        ⟨1, ⟨.loadDatabase, "d"⟩⟩ ∧
    (∀ db, loadAssoc [("d", (⟨"r/d"⟩ : DB))] "d" = some db →
      handleRequest ⟨[("d", ⟨"r/d"⟩)], []⟩ ⟨"r", 16⟩
        ⟨fun _ _ => .error "", fun _ => .error "", fun _ => none, fun _ => .ok "", .ok ""⟩
        ⟨1, ⟨.loadDatabase, "d"⟩⟩ =
      { dbm := ⟨[("d", ⟨"r/d"⟩)], storeAssoc [] 1 db⟩ }) ∧
    (loadAssoc [("d", (⟨"r/d"⟩ : DB))] "d" = none →
      handleRequest ⟨[("d", ⟨"r/d"⟩)], []⟩ ⟨"r", 16⟩
        ⟨fun _ _ => .error "", fun _ => .error "", fun _ => none, fun _ => .ok "", .ok ""⟩
        ⟨1, ⟨.loadDatabase, "d"⟩⟩ =
      { dbm := ⟨[("d", ⟨"r/d"⟩)], []⟩,
        sends := [(1, ⟨.error, notLoadedMsg⟩)], errs := [notLoadedMsg] }) :=
  loadDatabase_pairs_only ⟨[("d", ⟨"r/d"⟩)], []⟩ ⟨"r", 16⟩
    ⟨fun _ _ => .error "", fun _ => .error "", fun _ => none, fun _ => .ok "", .ok ""⟩
    ⟨fun _ _ => .ok ⟨"other"⟩, fun _ => .ok [], fun _ => some "x", fun _ => .ok "m", .ok "t"⟩
    ⟨1, ⟨.loadDatabase, "d"⟩⟩ rfl

/-! ## Reachable registry states (C6) -/

/-- Registry states the running system can be in: after startup
(`loadAllDatabases` stores only into `databases`, pairing no session), then
any number of dispatched requests with any oracle outcomes. -/
inductive Reachable : DBManager → Prop
  | init (dbs : List (String × DB)) : Reachable ⟨dbs, []⟩
  | step (st : DBManager) (settings : Settings) (ors : Oracles) (req : Request) :
      Reachable st → Reachable (handleRequest st settings ors req).dbm

theorem handleRequest_preserves_pairedNodup (st : DBManager)
    (settings : Settings) (ors : Oracles) (req : Request)
    (h : keysNodup st.paired) :
    keysNodup (handleRequest st settings ors req).dbm.paired := by
  obtain ⟨sid, ty, data⟩ := req
  cases ty with
  | newDatabase =>
    cases hc : st.createDatabase sid data settings.root settings.blockSize ors.newDB with
    | error e => simpa [handleRequest, hc] using h
    | ok st' =>
      rcases createDatabase_ok_shape st sid data settings.root settings.blockSize
        ors.newDB st' hc with ⟨db, _, hshape⟩
      simp only [handleRequest, hc]
      rw [hshape]
      exact keysNodup_storeAssoc st.paired sid db h
  | loadDatabase =>
    cases hc : st.pair sid data with
    | error e => simpa [handleRequest, hc] using h
    | ok st' =>
      rcases pair_ok_shape st sid data st' hc with ⟨db, _, hshape⟩
      simp only [handleRequest, hc]
      rw [hshape]
      exact keysNodup_storeAssoc st.paired sid db h
  | query =>
    cases hg : st.getPair sid with
    | error e => simpa [handleRequest, hg] using h
    | ok db =>
      cases hp : ors.parse data with
      | error e => simpa [handleRequest, hg, hp] using h
      | ok cmds => simpa [handleRequest, hg, hp] using h
  | sessionExited =>
    cases hc : st.unpair sid with
    | error e => simpa [handleRequest, hc] using h
    | ok st' =>
      have hshape := unpair_ok_shape st sid st' hc
      simp only [handleRequest, hc]
      rw [hshape]
      exact keysNodup_deleteAssoc st.paired sid h
  | dropDb =>
    cases hr : ors.removeFile (joinPath settings.root data) with
    | none => simpa [handleRequest, hr] using h
    | some e => simpa [handleRequest, hr] using h
  | getMetadata =>
    cases hm : ors.marshalMeta st.getMetadata with
    | ok js => simpa [handleRequest, hm] using h
    | error e => simpa [handleRequest, hm] using h
  | showTransaction =>
    cases hm : ors.marshalTransactions with
    | ok js => simpa [handleRequest, hm] using h
    | error e => simpa [handleRequest, hm] using h
  | keepAlive => simpa [handleRequest] using h
  | newTable => simpa [handleRequest] using h
  | findTable => simpa [handleRequest] using h
  | error => simpa [handleRequest] using h
  | notification => simpa [handleRequest] using h

theorem reachable_pairedNodup (st : DBManager) (h : Reachable st) :
    keysNodup st.paired := by
  induction h with
  | init dbs => simp [keysNodup]
  | step st settings ors req _ ih =>
    exact handleRequest_preserves_pairedNodup st settings ors req ih

/-- C6: at every reachable registry state each session is bound to at most
one handle (two bindings of the same session agree), and `pair` on a
session that already has a binding replaces it: afterwards the session's
bindings are exactly the one handle registered under the paired name. -/
theorem session_at_most_one_binding (st : DBManager) (sid : SessionID)
    (name : String) (db dbv1 dbv2 : DB) (st' : DBManager)
    (hreach : Reachable st)
    (hmem1 : (sid, dbv1) ∈ st.paired) (hmem2 : (sid, dbv2) ∈ st.paired)
    (hload : loadAssoc st.databases name = some db)
    (hpair : st.pair sid name = .ok st') :
    dbv1 = dbv2 ∧
    st'.paired.filter (fun p => decide (p.1 = sid)) = [(sid, db)] := by
  constructor
  · exact keysNodup_mem_unique (reachable_pairedNodup st hreach) hmem1 hmem2
  · rcases pair_ok_shape st sid name st' hpair with ⟨db0, hload0, hshape⟩
    rw [hload0] at hload
    injection hload with hload
    subst hload
    rw [hshape]
    simp only [storeAssoc, List.filter]
    simp [removeKey_keep_eq_nil]

/-- C6 witness: the state reached by loading `d` on session 7 from a
post-startup registry; pairing session 7 again to `d` leaves exactly one
binding. -/
theorem session_at_most_one_binding_witness :
    ((⟨"r/d"⟩ : DB) = ⟨"r/d"⟩) ∧
    (DBManager.mk [("d", ⟨"r/d"⟩)] [(7, ⟨"r/d"⟩)]).paired.filter
      (fun p => decide (p.1 = 7)) = [(7, ⟨"r/d"⟩)] :=
  session_at_most_one_binding ⟨[("d", ⟨"r/d"⟩)], [(7, ⟨"r/d"⟩)]⟩ 7 "d"
    ⟨"r/d"⟩ ⟨"r/d"⟩ ⟨"r/d"⟩ ⟨[("d", ⟨"r/d"⟩)], [(7, ⟨"r/d"⟩)]⟩
    (Reachable.step ⟨[("d", ⟨"r/d"⟩)], []⟩ ⟨"r", 16⟩
      ⟨fun _ _ => .error "", fun _ => .error "", fun _ => none, fun _ => .ok "", .ok ""⟩
      ⟨7, ⟨.loadDatabase, "d"⟩⟩ (Reachable.init [("d", ⟨"r/d"⟩)]))
    (by decide) (by decide) rfl rfl

/-! ## Error routing at the dispatcher boundary (C1) -/

/-- C1 counterexample: a drop-database request whose file removal fails
produces an error yet sends nothing — the error is only printed to the
server console, swallowed without any client-visible response. -/
theorem dropDb_error_swallowed :
    (handleRequest ⟨[], []⟩ ⟨"r", 16⟩
        ⟨fun _ _ => .error "", fun _ => .error "", fun _ => some "remove failed",
          fun _ => .ok "", .ok ""⟩ ⟨1, ⟨.dropDb, "d"⟩⟩).errs = ["remove failed"] ∧
    (handleRequest ⟨[], []⟩ ⟨"r", 16⟩
        ⟨fun _ _ => .error "", fun _ => .error "", fun _ => some "remove failed",
          fun _ => .ok "", .ok ""⟩ ⟨1, ⟨.dropDb, "d"⟩⟩).sends = [] ∧
    (handleRequest ⟨[], []⟩ ⟨"r", 16⟩
        ⟨fun _ _ => .error "", fun _ => .error "", fun _ => some "remove failed",
          fun _ => .ok "", .ok ""⟩ ⟨1, ⟨.dropDb, "d"⟩⟩).logs = ["remove failed"] :=
  ⟨rfl, rfl, rfl⟩

/-- C1 (amended): every error produced while handling a request is routed
one of three ways — sent back to the originating session as an Error-typed
response (the new-database, load-database and query paths); logged to the
server console with no response at all (session-exited and drop-database);
or logged to the server console while a normal-typed response with an empty
marshalled payload is still sent (the get-metadata and show-transactions
marshal failures). An error never changes the registry, and an erroring
request sends nothing to any other session. -/
theorem dispatcher_error_routing (st : DBManager) (settings : Settings)
    (ors : Oracles) (req : Request) (e : String)
    (he : e ∈ (handleRequest st settings ors req).errs) :
    ((handleRequest st settings ors req).sends = [(req.sessionID, ⟨.error, e⟩)] ∨
      ((handleRequest st settings ors req).logs = [e] ∧
       (handleRequest st settings ors req).sends = [] ∧
       (req.response.type = .sessionExited ∨ req.response.type = .dropDb)) ∨
      ((handleRequest st settings ors req).logs = [e] ∧
       ((req.response.type = .getMetadata ∧
         (handleRequest st settings ors req).sends =
           [(req.sessionID, ⟨.getMetadata, "\x7bDatabases:" ++ "" ++ "\x7d"⟩)]) ∨
        (req.response.type = .showTransaction ∧
         (handleRequest st settings ors req).sends =
           [(req.sessionID,
             ⟨.showTransaction, "\x7bTransactions:" ++ "" ++ "\x7d"⟩)])))) ∧
    (handleRequest st settings ors req).dbm = st := by
  obtain ⟨sid, ty, data⟩ := req
  cases ty with
  | keepAlive => simp [handleRequest] at he
  | newTable => simp [handleRequest] at he
  | findTable => simp [handleRequest] at he
  | getMetadata =>
    cases hm : ors.marshalMeta st.getMetadata with
    | ok js => simp [handleRequest, hm] at he
    | error e' =>
      simp only [handleRequest, hm, List.mem_singleton] at he
      subst he
      simp [handleRequest, hm]
  | showTransaction =>
    cases hm : ors.marshalTransactions with
    | ok js => simp [handleRequest, hm] at he
    | error e' =>
      simp only [handleRequest, hm, List.mem_singleton] at he
      subst he
      simp [handleRequest, hm]
  | error => simp [handleRequest] at he
  | notification => simp [handleRequest] at he
  | newDatabase =>
    cases hc : st.createDatabase sid data settings.root settings.blockSize
        ors.newDB with
    | ok st' => simp [handleRequest, hc] at he
    | error e' =>
      simp only [handleRequest, hc, List.mem_singleton] at he
      subst he
      simp [handleRequest, hc]
  | loadDatabase =>
    cases hc : st.pair sid data with
    | ok st' => simp [handleRequest, hc] at he
    | error e' =>
      simp only [handleRequest, hc, List.mem_singleton] at he
      subst he
      simp [handleRequest, hc]
  | query =>
    cases hg : st.getPair sid with
    | error e' =>
      simp only [handleRequest, hg, List.mem_singleton] at he
      subst he
      simp [handleRequest, hg]
    | ok db =>
      cases hp : ors.parse data with
      | error e' =>
        simp only [handleRequest, hg, hp, List.mem_singleton] at he
        subst he
        simp [handleRequest, hg, hp]
      | ok cmds => simp [handleRequest, hg, hp] at he
  | sessionExited =>
    cases hc : st.unpair sid with
    | ok st' => simp [handleRequest, hc] at he
    | error e' =>
      simp only [handleRequest, hc, List.mem_singleton] at he
      subst he
      simp [handleRequest, hc]
  | dropDb =>
    cases hr : ors.removeFile (joinPath settings.root data) with
    | none => simp [handleRequest, hr] at he
    | some e' =>
      simp only [handleRequest, hr, List.mem_singleton] at he
      subst he
      simp [handleRequest, hr]

/-- C1 witness: a failing new-database request; its storage error comes
back to session 1 as an Error response and the registry is untouched. -/
theorem dispatcher_error_routing_witness :
    ((handleRequest ⟨[], []⟩ ⟨"r", 16⟩
        ⟨fun _ _ => .error "disk full", fun _ => .error "", fun _ => none,
          fun _ => .ok "", .ok ""⟩ ⟨1, ⟨.newDatabase, "d"⟩⟩).sends =
        [(1, ⟨.error, "disk full"⟩)] ∨
      ((handleRequest ⟨[], []⟩ ⟨"r", 16⟩
          ⟨fun _ _ => .error "disk full", fun _ => .error "", fun _ => none,
            fun _ => .ok "", .ok ""⟩ ⟨1, ⟨.newDatabase, "d"⟩⟩).logs = ["disk full"] ∧
       (handleRequest ⟨[], []⟩ ⟨"r", 16⟩
          ⟨fun _ _ => .error "disk full", fun _ => .error "", fun _ => none,
            fun _ => .ok "", .ok ""⟩ ⟨1, ⟨.newDatabase, "d"⟩⟩).sends = [] ∧
       (ResponseType.newDatabase = .sessionExited ∨
        ResponseType.newDatabase = .dropDb)) ∨
      ((handleRequest ⟨[], []⟩ ⟨"r", 16⟩
          ⟨fun _ _ => .error "disk full", fun _ => .error "", fun _ => none,
            fun _ => .ok "", .ok ""⟩ ⟨1, ⟨.newDatabase, "d"⟩⟩).logs = ["disk full"] ∧
       ((ResponseType.newDatabase = .getMetadata ∧
         (handleRequest ⟨[], []⟩ ⟨"r", 16⟩
            ⟨fun _ _ => .error "disk full", fun _ => .error "", fun _ => none,
              fun _ => .ok "", .ok ""⟩ ⟨1, ⟨.newDatabase, "d"⟩⟩).sends =
           [(1, ⟨.getMetadata, "\x7bDatabases:" ++ "" ++ "\x7d"⟩)]) ∨
        (ResponseType.newDatabase = .showTransaction ∧
         (handleRequest ⟨[], []⟩ ⟨"r", 16⟩
            ⟨fun _ _ => .error "disk full", fun _ => .error "", fun _ => none,
              fun _ => .ok "", .ok ""⟩ ⟨1, ⟨.newDatabase, "d"⟩⟩).sends =
           [(1, ⟨.showTransaction, "\x7bTransactions:" ++ "" ++ "\x7d"⟩)])))) ∧
    (handleRequest ⟨[], []⟩ ⟨"r", 16⟩
        ⟨fun _ _ => .error "disk full", fun _ => .error "", fun _ => none,
          fun _ => .ok "", .ok ""⟩ ⟨1, ⟨.newDatabase, "d"⟩⟩).dbm = (⟨[], []⟩ : DBManager) :=
  dispatcher_error_routing ⟨[], []⟩ ⟨"r", 16⟩
    ⟨fun _ _ => .error "disk full", fun _ => .error "", fun _ => none,
      fun _ => .ok "", .ok ""⟩ ⟨1, ⟨.newDatabase, "d"⟩⟩ "disk full" (by decide)

/-! ## The create-table continuation (C2) -/

/-- C2 counterexample: in the final iteration the create-table continuation
invoked with a successfully created table named `t` notifies the bare text
"Table Created", not "Table Created t". -/
theorem createTable_notification_lacks_name :
    createTableCont 0 (.table "t") none =
      .sends [(0, ⟨.notification, "Table Created"⟩)] ∧
    ("Table Created" : String) ≠ "Table Created " ++ "t" :=
  ⟨rfl, by decide⟩

/-- C2 (amended): the final iteration's create-table continuation notifies
exactly "Table Created" (no table name appended) on success and emits an
Error response carrying the error's message on failure; only the first
iteration's continuation appended the created table's name. -/
theorem createTable_continuation_contract (sid : SessionID) (r : ExecResult)
    (e nm : String) :
    bindContinuation sid .createTable = some (createTableCont sid) ∧
    createTableCont sid r none = .sends [(sid, ⟨.notification, "Table Created"⟩)] ∧
    createTableCont sid r (some e) = .sends [(sid, ⟨.error, e⟩)] ∧
    createTableContV1 sid (.table nm) none =
      .sends [(sid, ⟨.notification, "Table Created " ++ nm⟩)] ∧
    createTableContV1 sid (.table nm) (some e) = .sends [(sid, ⟨.error, e⟩)] :=
  ⟨rfl, rfl, rfl, rfl, rfl⟩

/-! ## Drop-database versus live pairings (C3) -/

/-- C3 counterexample: database `x` is registered and paired to live
session 1, yet a drop-database request for `x` from session 2 removes the
file `r/x` and is not refused (no response at all is sent). -/
theorem dropDb_deletes_despite_pairing :
    loadAssoc ([("x", (⟨"r/x"⟩ : DB))]) "x" = some ⟨"r/x"⟩ ∧
    loadAssoc ([(1, (⟨"r/x"⟩ : DB))] : List (SessionID × DB)) 1 = some ⟨"r/x"⟩ ∧
    (handleRequest ⟨[("x", ⟨"r/x"⟩)], [(1, ⟨"r/x"⟩)]⟩ ⟨"r", 16⟩
        ⟨fun _ _ => .error "", fun _ => .error "", fun _ => none, fun _ => .ok "", .ok ""⟩
        ⟨2, ⟨.dropDb, "x"⟩⟩).removed = ["r/x"] ∧
    (handleRequest ⟨[("x", ⟨"r/x"⟩)], [(1, ⟨"r/x"⟩)]⟩ ⟨"r", 16⟩
        ⟨fun _ _ => .error "", fun _ => .error "", fun _ => none, fun _ => .ok "", .ok ""⟩
        ⟨2, ⟨.dropDb, "x"⟩⟩).sends = [] :=
  ⟨rfl, rfl, rfl, rfl⟩

/-- C3 (amended): a drop-database request removes the file at root/name
unconditionally — no pairing check is made, so live pairings to the name do
not prevent deletion; the registry itself is untouched and no response is
sent on success. -/
theorem dropDb_unconditional (st : DBManager) (settings : Settings)
    (ors : Oracles) (sid : SessionID) (name : String)
    (hrm : ors.removeFile (joinPath settings.root name) = none) :
    (handleRequest st settings ors ⟨sid, ⟨.dropDb, name⟩⟩).removed =
      [joinPath settings.root name] ∧
    (handleRequest st settings ors ⟨sid, ⟨.dropDb, name⟩⟩).dbm = st ∧
    (handleRequest st settings ors ⟨sid, ⟨.dropDb, name⟩⟩).sends = [] := by
  refine ⟨?_, ?_, ?_⟩ <;> simp [handleRequest, hrm]

/-- C3 amendment witness: the deletion goes through even though session 1
is paired to the dropped database. -/
theorem dropDb_unconditional_witness :
    (handleRequest ⟨[("x", ⟨"r/x"⟩)], [(1, ⟨"r/x"⟩)]⟩ ⟨"r", 16⟩
        ⟨fun _ _ => .error "", fun _ => .error "", fun _ => none, fun _ => .ok "", .ok ""⟩
        ⟨2, ⟨.dropDb, "x"⟩⟩).removed = ["r/x"] ∧
    (handleRequest ⟨[("x", ⟨"r/x"⟩)], [(1, ⟨"r/x"⟩)]⟩ ⟨"r", 16⟩
        ⟨fun _ _ => .error "", fun _ => .error "", fun _ => none, fun _ => .ok "", .ok ""⟩
        ⟨2, ⟨.dropDb, "x"⟩⟩).dbm =
      (⟨[("x", ⟨"r/x"⟩)], [(1, ⟨"r/x"⟩)]⟩ : DBManager) ∧
    (handleRequest ⟨[("x", ⟨"r/x"⟩)], [(1, ⟨"r/x"⟩)]⟩ ⟨"r", 16⟩
        ⟨fun _ _ => .error "", fun _ => .error "", fun _ => none, fun _ => .ok "", .ok ""⟩
        ⟨2, ⟨.dropDb, "x"⟩⟩).sends = [] :=
  dropDb_unconditional ⟨[("x", ⟨"r/x"⟩)], [(1, ⟨"r/x"⟩)]⟩ ⟨"r", 16⟩
    ⟨fun _ _ => .error "", fun _ => .error "", fun _ => none, fun _ => .ok "", .ok ""⟩
    2 "x" rfl

/-! ## Unlisted command kinds at the binder (C8) -/

/-- C8 counterexample: for an alter-table command the binder produces no
continuation at all — the Go `function` variable stays nil — rather than a
no-op closure. -/
theorem alterTable_binds_nil : bindContinuation 0 Command.alterTable = none :=
  rfl

/-- C8 (amended): for a command kind with no listed response contract the
binder leaves the continuation nil (`none`) instead of building a no-op
closure, yet the batch submitted to the Transaction Manager still carries
one (command, continuation) entry per compiled command — unmatched kinds
included — and the binder itself is a total function that never fails. -/
theorem binder_total_nil_for_unlisted (st : DBManager) (settings : Settings)
    (ors : Oracles) (sid : SessionID) (text : String) (db : DB)
    (cmds : List Command)
    (hdb : st.getPair sid = .ok db)
    (hparse : ors.parse text = .ok cmds) :
    bindContinuation sid .alterTable = none ∧
    (handleRequest st settings ors ⟨sid, ⟨.query, text⟩⟩).batches =
      [cmds.map (fun c => ⟨c, bindContinuation sid c⟩)] := by
  exact ⟨rfl, by simp [handleRequest, hdb, hparse]⟩

/-- C8 amendment witness: a query compiling to an alter-table and an insert
command; the batch has both entries, the alter-table one with a nil
continuation. -/
theorem binder_total_nil_for_unlisted_witness :
    bindContinuation 1 .alterTable = none ∧
    (handleRequest ⟨[("d", ⟨"r/d"⟩)], [(1, ⟨"r/d"⟩)]⟩ ⟨"r", 16⟩
        ⟨fun _ _ => .error "", fun _ => .ok [.alterTable, .insert], fun _ => none,
          fun _ => .ok "", .ok ""⟩
        ⟨1, ⟨.query, "ALTER TABLE t"⟩⟩).batches =
      [[⟨Command.alterTable, none⟩, ⟨Command.insert, some (insertCont 1)⟩]] :=
  binder_total_nil_for_unlisted ⟨[("d", ⟨"r/d"⟩)], [(1, ⟨"r/d"⟩)]⟩ ⟨"r", 16⟩
    ⟨fun _ _ => .error "", fun _ => .ok [.alterTable, .insert], fun _ => none,
      fun _ => .ok "", .ok ""⟩
    1 "ALTER TABLE t" ⟨"r/d"⟩ [.alterTable, .insert] rfl rfl

/-! ## The accept loop on failure (C9) -/

/-- C9: at the failing input — `Accept` returning a nil connection together
with an error — the accept loop iteration calls `Close` on the nil
connection and panics, instead of sleeping and retrying as the claim
states. -/
theorem acceptFailure_panics (e : String) :
    acceptIteration (.failure e) = .panicked nilDerefMsg ∧
    acceptIteration (.failure e) ≠ .sleptAndRetried :=
  ⟨rfl, by simp [acceptIteration, connClose]⟩

end ModestEngine
